import Mathlib

/-!
Shallow embedding of `src/src/value.rs` (the value/marshaling core of the
`mlua` boundary layer): the `Value` tagged union, its equality, ordering,
string coercion and serialization, the `MultiValue` container, and the
default conversion-protocol methods `from_lua_arg` / `from_lua_multi_args`.

Modelling conventions:
- raw pointers are modelled as `Nat`, with `0` standing for the null pointer;
- `crate::types::Integer` (`lua_Integer`, a fixed-width signed integer) is
  modelled as `Int`; where the code performs a width-sensitive conversion
  (`try_into::<i64>()`) the i64 range check is made explicit;
- `crate::types::Number` (an IEEE-754 double) is modelled as an exact value:
  a rational for the finite doubles, plus the two infinities and NaN; the
  primitive `==` / `<` / `>` on doubles are translated to the corresponding
  exact comparisons with IEEE NaN semantics (NaN compares false to everything,
  including itself);
- the handle types (`String`, `Table`, `Function`, `Thread`, `AnyUserData`)
  and the error type live outside `src/`; their small surface used by this
  file (pointer identity, reference equality, `__eq` metamethod dispatch,
  runtime stringification) is modelled from the spec, marked as such below.
-/

namespace Mlua

/-- Recoverable runtime error (`crate::error::Error`, external to `src/`).
Modelled from the spec: only the constructors this core needs are kept —
`BadArgument` with callable name (the Rust field `to`, here `toName`),
1-based position, argument name and chained cause, plus a catch-all carrying
a message for every other error. -/
inductive LuaError : Type where
  | badArgument (toName : Option String) (pos : Nat) (name : Option String) (cause : LuaError)
  | runtimeErr (msg : String)
deriving DecidableEq, Repr

deriving instance DecidableEq for Except

/-- Rust `crate::types::LightUserData`: a raw-pointer wrapper. Pointer modelled as
`Nat`, null pointer as `0`; its `PartialEq` is pointer equality. -/
structure LightUserData : Type where
  ptr : Nat
deriving DecidableEq, Repr

/-- A reference into the runtime's registry (the `LuaRef` inside the handle
types, external to `src/`). Modelled from the spec: it carries its
pointer-identity token (`lua_topointer`) and the outcome of the runtime's
generic stringify hook (`luaL_tolstring` + UTF-8 decode), which may fail and
may invoke user metamethods. -/
structure LuaRef : Type where
  ptr : Nat
  tostr : Except LuaError String
deriving DecidableEq, Repr

/-- Rust `crate::string::String` (external to `src/`). Modelled from the spec: an
interned, not-necessarily-UTF-8 byte sequence with a pointer-identity token;
`to_str` (UTF-8 decoding, which fails on invalid bytes) is carried as its
outcome `toStrRes`. Raw equality compares the byte contents. -/
structure LuaString : Type where
  ptr : Nat
  bytes : List Nat
  toStrRes : Except LuaError String
deriving DecidableEq, Repr

/-- Rust `crate::table::Table` (external to `src/`). Modelled from the spec: a
handle with pointer identity; `eqHook` is the outcome of the `__eq`
metamethod on this table when one is defined (`none` when the table defines
no `__eq`). Raw equality (`PartialEq`) is reference identity. -/
structure Table : Type where
  ref : LuaRef
  eqHook : Option (Except LuaError Bool)
deriving DecidableEq, Repr

/-- Rust `crate::function::Function` (external to `src/`): an opaque handle. -/
structure LuaFunction : Type where
  ref : LuaRef
deriving DecidableEq, Repr

/-- Rust `crate::thread::Thread` (external to `src/`): an opaque handle. -/
structure LuaThread : Type where
  ref : LuaRef
deriving DecidableEq, Repr

/-- Rust `crate::userdata::AnyUserData` (external to `src/`). Modelled from the
spec exactly like `Table`: pointer identity plus an optional `__eq`
metamethod outcome. -/
structure AnyUserData : Type where
  ref : LuaRef
  eqHook : Option (Except LuaError Bool)
deriving DecidableEq, Repr

/-- Rust `crate::types::Number` (an IEEE-754 double), modelled exactly: a finite
double is a rational value, and the non-finite doubles are `posInf`,
`negInf` and `nan`. The two IEEE zeros are collapsed (they are `==`-equal
and order-equal, and no claim below observes their textual difference). -/
inductive Number : Type where
  | finite (q : ℚ)
  | posInf
  | negInf
  | nan
deriving DecidableEq, Repr

/-- IEEE `==` on doubles: NaN is not equal to anything (itself included). -/
def numEqB : Number → Number → Bool
  | .finite a, .finite b => decide (a = b)
  | .posInf, .posInf => true
  | .negInf, .negInf => true
  | _, _ => false

/-- IEEE `<` on doubles: any comparison involving NaN is false. -/
def numLtB : Number → Number → Bool
  | .finite a, .finite b => decide (a < b)
  | .finite _, .posInf => true
  | .negInf, .finite _ => true
  | .negInf, .posInf => true
  | _, _ => false

/-- IEEE `>` on doubles, i.e. `<` flipped. -/
def numGtB (a b : Number) : Bool :=
  numLtB b a

/-- Round an integer to 53-bit mantissa precision with ties-to-even: the
value of the Rust cast `i as f64` for `i : i64` (every i64 magnitude is far
below the f64 overflow threshold, so the cast is always finite). -/
def f64RoundInt (i : Int) : Int :=
  let n := i.natAbs
  if n ≤ 2 ^ 53 then i
  else
    let e := n.log2 + 1 - 53
    let q := n / 2 ^ e
    let r := n % 2 ^ e
    let half := 2 ^ (e - 1)
    let q' := if half < r ∨ (r = half ∧ q % 2 = 1) then q + 1 else q
    (if i < 0 then -1 else 1) * Int.ofNat (q' * 2 ^ e)

/-- The Rust cast `i as Number` (`i64` to `f64`, round to nearest even). -/
def castIntToNumber (i : Int) : Number :=
  .finite (f64RoundInt i : ℚ)

/-- Rust `Value`: the dynamically typed Lua value (`enum Value` in
`src/src/value.rs`). The `luau`-only `Vector` variant is compiled out here
(feature off), matching the default configuration. -/
inductive Value : Type where
  | nil
  | boolean (b : Bool)
  | lightUserData (ud : LightUserData)
  | integer (i : Int)
  | number (n : Number)
  | string (s : LuaString)
  | table (t : Table)
  | function (f : LuaFunction)
  | thread (t : LuaThread)
  | userData (u : AnyUserData)
  | error (e : LuaError)
deriving DecidableEq, Repr

/-- Rust `Value::NULL`: the light userdata holding the null pointer. -/
def Value.NULL : Value :=
  .lightUserData ⟨0⟩

/-- Rust `Value::type_name`. -/
def Value.type_name : Value → String
  | .nil => "nil"
  | .boolean _ => "boolean"
  | .lightUserData _ => "lightuserdata"
  | .integer _ => "integer"
  | .number _ => "number"
  | .string _ => "string"
  | .table _ => "table"
  | .function _ => "function"
  | .thread _ => "thread"
  | .userData _ => "userdata"
  | .error _ => "error"

/-- Raw `PartialEq` on `Value` (`impl PartialEq for Value`), clause by
clause. Handle `==` (reference identity) and `String` `==` (byte contents)
are external to `src/` and modelled from the spec. -/
def valueEq : Value → Value → Bool
  | .nil, .nil => true
  | .boolean a, .boolean b => a == b
  | .lightUserData a, .lightUserData b => a.ptr == b.ptr
  | .integer a, .integer b => a == b
  | .integer a, .number b => numEqB (castIntToNumber a) b
  | .number a, .integer b => numEqB a (castIntToNumber b)
  | .number a, .number b => numEqB a b
  | .string a, .string b => a.bytes == b.bytes
  | .table a, .table b => a.ref.ptr == b.ref.ptr
  | .function a, .function b => a.ref.ptr == b.ref.ptr
  | .thread a, .thread b => a.ref.ptr == b.ref.ptr
  | .userData a, .userData b => a.ref.ptr == b.ref.ptr
  | _, _ => false

/-- Rust `Table::equals` (external to `src/`). Modelled from the spec: try the
left operand's `__eq` metamethod, then the right's; with no metamethod fall
back to reference identity. A metamethod may fail, and the failure
propagates. -/
def Table.equals (a b : Table) : Except LuaError Bool :=
  match a.eqHook with
  | some r => r
  | none =>
    match b.eqHook with
    | some r => r
    | none => .ok (a.ref.ptr == b.ref.ptr)

/-- Rust `AnyUserData::equals` (external to `src/`), modelled like
`Table.equals`. -/
def AnyUserData.equals (a b : AnyUserData) : Except LuaError Bool :=
  match a.eqHook with
  | some r => r
  | none =>
    match b.eqHook with
    | some r => r
    | none => .ok (a.ref.ptr == b.ref.ptr)

/-- Rust `Value::equals`: metamethod-aware equality. Table/userdata pairs
delegate to the handle's `equals` (which may invoke `__eq` and may fail);
every other pair is raw `PartialEq`, wrapped in `Ok`. -/
def Value.equals (a b : Value) : Except LuaError Bool :=
  match a, b with
  | .table a, .table b => Table.equals a b
  | .userData a, .userData b => AnyUserData.equals a b
  | a, b => .ok (valueEq a b)

/-- Rust `Value::to_pointer`: the pointer-identity token; null for the
non-reference variants. -/
def Value.toPointer : Value → Nat
  | .lightUserData ud => ud.ptr
  | .table t => t.ref.ptr
  | .string s => s.ptr
  | .function f => f.ref.ptr
  | .thread t => t.ref.ptr
  | .userData u => u.ref.ptr
  | _ => 0

/-- Decimal textual form of a double (`f64`'s `Display`, external to
`src/`). Modelled from the spec: the exact shortest-roundtrip decimal
rendering is abstracted; no claim below observes it. -/
def numberToString : Number → String
  | .finite q => toString q
  | .posInf => "inf"
  | .negInf => "-inf"
  | .nan => "NaN"

/-- Display text of an error (`Error`'s `Display`, external to `src/`),
modelled from the spec. -/
def errorToString : LuaError → String
  | .badArgument _ _ _ cause => "bad argument: " ++ errorToString cause
  | .runtimeErr msg => msg

/-- Address-formatted rendering of a non-null pointer (`{:p}`, external),
modelled from the spec. -/
def ptrToString (p : Nat) : String :=
  toString p

/-- Rust `Value::to_string`: the human-readable coercion. The handle branch's
runtime stringification (a protected `luaL_tolstring` call plus UTF-8
decode) is the `tostr` outcome carried by the handle's `LuaRef`; the
`String` branch's `to_str` is the `toStrRes` outcome. -/
def Value.toStr : Value → Except LuaError String
  | .nil => .ok "nil"
  | .boolean b => .ok (if b then "true" else "false")
  | .lightUserData ud =>
    if ud.ptr = 0 then .ok "null"
    else .ok ("lightuserdata: " ++ ptrToString ud.ptr)
  | .integer i => .ok (toString i)
  | .number n => .ok (numberToString n)
  | .string s => s.toStrRes
  | .table t => t.ref.tostr
  | .function f => f.ref.tostr
  | .thread t => t.ref.tostr
  | .userData u => u.ref.tostr
  | .error e => .ok (errorToString e)

/-- Rust `Ord::cmp` for `bool` (std, external): `false < true`. -/
def boolCmp : Bool → Bool → Ordering
  | false, false => .eq
  | false, true => .lt
  | true, false => .gt
  | true, true => .eq

/-- Rust `Ord::cmp` for the integer payloads (std, external). -/
def intCmp (a b : Int) : Ordering :=
  if a < b then .lt else if b < a then .gt else .eq

/-- Rust `Ord::cmp` for pointer-identity tokens (std address order, external). -/
def natCmp (a b : Nat) : Ordering :=
  if a < b then .lt else if b < a then .gt else .eq

/-- Rust `Ord::cmp` for byte slices (std, external): lexicographic by bytes. -/
def byteCmp : List Nat → List Nat → Ordering
  | [], [] => .eq
  | [], _ :: _ => .lt
  | _ :: _, [] => .gt
  | a :: xs, b :: ys =>
    match natCmp a b with
    | .eq => byteCmp xs ys
    | o => o

/-- The inner `cmp_num` of `Value::cmp`: `<` then `>` then `Equal` (so any
NaN operand yields `Equal`). -/
def cmpNum (a b : Number) : Ordering :=
  if numLtB a b then .lt
  else if numGtB a b then .gt
  else .eq

/-- The arms of `Value::cmp` from the `Boolean` group downwards, reached
after the `Nil` arms and the null-lightuserdata guard arms have fallen
through (`valueCmp` below dispatches those first, exactly in source
order). -/
def valueCmpAfterNull : Value → Value → Ordering
  | .boolean a, .boolean b => boolCmp a b
  | .boolean _, _ => .lt
  | _, .boolean _ => .gt
  | .integer a, .integer b => intCmp a b
  | .integer a, .number b => cmpNum (castIntToNumber a) b
  | .number a, .integer b => cmpNum a (castIntToNumber b)
  | .number a, .number b => cmpNum a b
  | .integer _, _ => .lt
  | .number _, _ => .lt
  | _, .integer _ => .gt
  | _, .number _ => .gt
  | .string a, .string b => byteCmp a.bytes b.bytes
  | .string _, _ => .lt
  | _, .string _ => .gt
  | a, b => natCmp (Value.toPointer a) (Value.toPointer b)

/-- Rust `Value::cmp` (debug/display ordering). The match arms are translated in
source order; the guard arms (`ud1 == ud2`, `ud1.0.is_null()`,
`ud2.0.is_null()`) become the explicit conditionals, and every fall-through
from them continues with `valueCmpAfterNull`. A pair of distinct non-null
light userdata falls through every later arm to the final
pointer-comparison arm, which on that pair compares the raw pointers. -/
def valueCmp : Value → Value → Ordering
  | .nil, .nil => .eq
  | .nil, _ => .lt
  | _, .nil => .gt
  | .lightUserData u1, .lightUserData u2 =>
    if u1 = u2 then .eq
    else if u1.ptr = 0 then .lt
    else if u2.ptr = 0 then .gt
    else natCmp u1.ptr u2.ptr
  | .lightUserData u1, b =>
    if u1.ptr = 0 then .lt else valueCmpAfterNull (.lightUserData u1) b
  | a, .lightUserData u2 =>
    if u2.ptr = 0 then .gt else valueCmpAfterNull a (.lightUserData u2)
  | a, b => valueCmpAfterNull a b

/-- The serializer call a successful `Serialize for Value` makes on the
generic serializer `S`: one constructor per `serialize_*` entry point used,
with the delegating variants (`String`, `Table`, `UserData`) recorded as
delegation to the handle's own `Serialize` capability. -/
inductive SerOutput : Type where
  | unit
  | boolean (b : Bool)
  | int64 (i : Int)
  | float64 (n : Number)
  | str (s : LuaString)
  | table (t : Table)
  | userdata (u : AnyUserData)
  | noneRep
deriving DecidableEq, Repr

/-- Outcome of `Serialize for Value`: a serializer call, a recoverable
custom serialization error (`ser::Error::custom`), or a process abort
(Rust `panic!`, as produced by `.expect(..)`). -/
inductive SerResult : Type where
  | ok (o : SerOutput)
  | err (msg : String)
  | panic (msg : String)
deriving DecidableEq, Repr

/-- Whether a `SerResult` is the recoverable-error outcome. -/
def SerResult.isErr : SerResult → Bool
  | .err _ => true
  | _ => false

/-- The i64 range check performed by `try_into::<i64>()` on the `Integer`
payload. -/
def fitsI64 (i : Int) : Prop :=
  -(2 ^ 63) ≤ i ∧ i < 2 ^ 63

instance (i : Int) : Decidable (fitsI64 i) :=
  inferInstanceAs (Decidable (_ ∧ _))

/-- Rust `impl Serialize for Value`, arm by arm. The `Integer` arm is
`serialize_i64((*i).try_into().expect("cannot convert Lua Integer to i64"))`:
a payload outside the i64 range makes `expect` panic (a process abort, not a
recoverable serializer error); a payload in range is passed through exactly
(no truncation). The final arm builds `format!("cannot serialize <{}>",
self.type_name())` and returns it as a custom (recoverable) error. -/
def serializeValue : Value → SerResult
  | .nil => .ok .unit
  | .boolean b => .ok (.boolean b)
  | .integer i =>
    if fitsI64 i then .ok (.int64 i)
    else .panic "cannot convert Lua Integer to i64"
  | .number n => .ok (.float64 n)
  | .string s => .ok (.str s)
  | .table t => .ok (.table t)
  | .userData u => .ok (.userdata u)
  | .lightUserData ud =>
    if ud.ptr = 0 then .ok .noneRep
    else .err ("cannot serialize <" ++ Value.type_name (.lightUserData ud) ++ ">")
  | .function f =>
    .err ("cannot serialize <" ++ Value.type_name (.function f) ++ ">")
  | .thread t =>
    .err ("cannot serialize <" ++ Value.type_name (.thread t) ++ ">")
  | .error e =>
    .err ("cannot serialize <" ++ Value.type_name (.error e) ++ ">")

/-- Rust `MultiValue`: ordered values for argument/return passing. `inner` is the
backing `Vec` in its storage order: the logical front of the sequence is the
END of `inner` (the container stores values back-to-front so `Vec::push` /
`Vec::pop` at the end give O(1) front operations). -/
structure MultiValue : Type where
  inner : List Value
deriving DecidableEq, Repr

/-- Rust `MultiValue::new`. -/
def MultiValue.new : MultiValue :=
  ⟨[]⟩

/-- Rust `MultiValue::from_vec`: reverse the logical list into storage order. -/
def MultiValue.from_vec (v : List Value) : MultiValue :=
  ⟨v.reverse⟩

/-- Rust `MultiValue::into_vec`: reverse storage back into logical order. -/
def MultiValue.into_vec (mv : MultiValue) : List Value :=
  mv.inner.reverse

/-- Rust `MultiValue::len`. -/
def MultiValue.len (mv : MultiValue) : Nat :=
  mv.inner.length

/-- Rust `MultiValue::get`: logical front-to-back access on the reversed
storage (`self.0.get(self.0.len() - index - 1)` under the bound check). -/
def MultiValue.get (mv : MultiValue) (index : Nat) : Option Value :=
  if index < mv.inner.length then
    mv.inner.get? (mv.inner.length - index - 1)
  else
    none

/-- Rust `MultiValue::push_front`: `Vec::push` at the storage end. -/
def MultiValue.push_front (mv : MultiValue) (value : Value) : MultiValue :=
  ⟨mv.inner ++ [value]⟩

/-- Rust `MultiValue::pop_front`: `Vec::pop` from the storage end, with the
updated container. -/
def MultiValue.pop_front (mv : MultiValue) : Option Value × MultiValue :=
  (mv.inner.getLast?, ⟨mv.inner.dropLast⟩)

/-- Rust `MultiValue::clear`. -/
def MultiValue.clear (_mv : MultiValue) : MultiValue :=
  ⟨[]⟩

/-- Result of an operation that either returns normally or aborts the
process (Rust `panic!`). -/
inductive PanicOr (α : Type) : Type where
  | ok (a : α)
  | panic (msg : String)
deriving DecidableEq, Repr

/-- Rust `impl Index<usize> for MultiValue`: `get`, and on `None` a panic with
the formatted out-of-bounds message. -/
def MultiValue.index (mv : MultiValue) (i : Nat) : PanicOr Value :=
  match mv.get i with
  | some result => .ok result
  | none =>
    .panic ("index out of bounds: the len is " ++ toString mv.len
      ++ " but the index is " ++ toString i)

/-- The loop of `MultiValue::refill` over the already-cleared backing `Vec`
(`acc`, in storage order): push each produced value at the storage end; the
`?` on a failed production returns the error immediately, leaving `acc` as
is (in particular NOT yet reversed); exhausting the iterator reverses the
storage and returns success. -/
def refillGo : List (Except LuaError Value) → List Value →
    Except LuaError Unit × List Value
  | [], acc => (.ok (), acc.reverse)
  | .ok v :: rest, acc => refillGo rest (acc ++ [v])
  | .error e :: _, acc => (.error e, acc)

/-- Rust `MultiValue::refill`: clear, then rebuild from a sequence of fallible
productions (the iterator is modelled as the list of outcomes it would
produce; short-circuiting shows up as the result not depending on anything
after the first error). Returns the loop result together with the final
container state. -/
def MultiValue.refill (_mv : MultiValue) (productions : List (Except LuaError Value)) :
    Except LuaError Unit × MultiValue :=
  let r := refillGo productions []
  (r.1, ⟨r.2⟩)

/-- Rust `FromLua::from_lua_arg` (default method): run the implementor's
`from_lua` (abstracted as the function argument `fromLua`, with the `Lua`
context already applied) and wrap any failure in `Error::BadArgument` with
the given position `i`, callable name `toName`, no argument name, and the
original error as the chained cause. -/
def from_lua_arg {α : Type} (fromLua : Value → Except LuaError α)
    (value : Value) (i : Nat) (toName : Option String) : Except LuaError α :=
  match fromLua value with
  | .ok a => .ok a
  | .error err => .error (.badArgument toName i none err)

/-- Rust `FromLuaMulti::from_lua_multi_args` (default method): `let _ = (i, to);`
then plain `from_lua_multi` — the position and callable name are discarded
and failures are NOT wrapped. -/
def from_lua_multi_args {α : Type} (fromLuaMulti : MultiValue → Except LuaError α)
    (values : MultiValue) (i : Nat) (toName : Option String) : Except LuaError α :=
  let _ := (i, toName)
  fromLuaMulti values

/-- Whether an outcome failed with a `BadArgument` error. -/
def isBadArgumentError {α : Type} : Except LuaError α → Bool
  | .error (.badArgument _ _ _ _) => true
  | _ => false

/-- Variant discriminator: is this `Value` a `Table`? -/
def Value.isTable : Value → Bool
  | .table _ => true
  | _ => false

/-- Variant discriminator: is this `Value` a `UserData`? -/
def Value.isUserData : Value → Bool
  | .userData _ => true
  | _ => false

/-- The precedence category of a `Value` in the spec's stated `cmp` order
(used only to STATE the ordering claim): 0 = Nil, 1 = the null
lightuserdata sentinel, 2 = Boolean, 3 = Integer/Number, 4 = String, 5 =
everything else (non-null lightuserdata and the pointer-compared
variants). -/
def specRank : Value → Nat
  | .nil => 0
  | .lightUserData ud => if ud.ptr = 0 then 1 else 5
  | .boolean _ => 2
  | .integer _ => 3
  | .number _ => 3
  | .string _ => 4
  | _ => 5

/-- C5: the null sentinel `Value::NULL` (a `LightUserData` holding the null
pointer) is a genuine value distinct from `Nil`: `NULL.equals(Nil)` is
`Ok(false)`, `NULL != Nil` under raw `PartialEq` equality, `NULL.to_string()`
is `Ok("null")` and `Nil.to_string()` is `Ok("nil")`. -/
theorem null_sentinel_distinct_from_nil :
    Value.equals Value.NULL Value.nil = .ok false ∧
    valueEq Value.NULL Value.nil = false ∧
    Value.toStr Value.NULL = .ok "null" ∧
    Value.toStr Value.nil = .ok "nil" := by
  refine ⟨rfl, rfl, rfl, rfl⟩

/-- C1 counterexample: `Value::Number(f64::NAN)` is a primitive-variant
value whose `equals` on itself is `Ok(false)`, not `Ok(true)` — IEEE `==`
makes NaN unequal to itself, so self-equality fails for this primitive. -/
theorem nan_not_equal_to_itself :
    Value.equals (.number .nan) (.number .nan) = .ok false := by
  rfl

/-- C1 (amended): `v.equals(v)` is `Ok(true)` for every primitive-variant
value EXCEPT `Number(NaN)`; an `Integer` and a `Number` carrying the same
mathematical value (the integer is exactly representable as a double)
compare `Ok(true)`; and a `String` is never `equals`-equal to an `Integer`
or `Number`, regardless of its byte contents. -/
theorem primitive_equals_spec :
    Value.equals .nil .nil = .ok true ∧
    (∀ b : Bool, Value.equals (.boolean b) (.boolean b) = .ok true) ∧
    (∀ ud : LightUserData, Value.equals (.lightUserData ud) (.lightUserData ud) = .ok true) ∧
    (∀ i : Int, Value.equals (.integer i) (.integer i) = .ok true) ∧
    (∀ n : Number, n ≠ .nan → Value.equals (.number n) (.number n) = .ok true) ∧
    (∀ s : LuaString, Value.equals (.string s) (.string s) = .ok true) ∧
    (∀ i : Int, f64RoundInt i = i →
      Value.equals (.integer i) (.number (.finite (i : ℚ))) = .ok true) ∧
    (∀ (s : LuaString) (i : Int), Value.equals (.string s) (.integer i) = .ok false) ∧
    (∀ (s : LuaString) (n : Number), Value.equals (.string s) (.number n) = .ok false) := by
  refine ⟨rfl, ?_, ?_, ?_, ?_, ?_, ?_, ?_, ?_⟩
  · intro b; cases b <;> rfl
  · intro ud; simp [Value.equals, valueEq]
  · intro i; simp [Value.equals, valueEq]
  · intro n h; cases n <;> simp_all [Value.equals, valueEq, numEqB]
  · intro s; simp [Value.equals, valueEq]
  · intro i h
    simp [Value.equals, valueEq, numEqB, castIntToNumber, h]
  · intro s i; rfl
  · intro s n; rfl

/-- C1 witness: the hypothesis-bearing clauses of `primitive_equals_spec`
hold at concrete inputs (`Number(+inf)` is a non-NaN primitive, and `3` is
exactly representable as a double). -/
theorem primitive_equals_spec_witness :
    Value.equals (.number .posInf) (.number .posInf) = .ok true ∧
    Value.equals (.integer 3) (.number (.finite ((3 : Int) : ℚ))) = .ok true := by
  exact ⟨primitive_equals_spec.2.2.2.2.1 .posInf (by decide),
    primitive_equals_spec.2.2.2.2.2.2.1 3 (by decide)⟩

/-- C2 counterexample: an `Integer` payload outside the i64 range (here
`2^63`) makes serialization PANIC via `.expect("cannot convert Lua Integer
to i64")` — a process abort, not a recoverable serialization error. -/
theorem serialize_integer_overflow_panics :
    serializeValue (.integer (2 ^ 63)) = .panic "cannot convert Lua Integer to i64" ∧
    (serializeValue (.integer (2 ^ 63))).isErr = false := by
  constructor
  · simp [serializeValue, fitsI64]
  · simp [serializeValue, fitsI64, SerResult.isErr]

/-- C2 (amended): an `Integer` payload that does not fit the serializer's
native 64-bit width makes serialization panic with `"cannot convert Lua
Integer to i64"` (the code aborts via `expect` instead of returning a
recoverable error), and a payload in range is serialized as exactly that
i64 scalar — the integer is never silently truncated. -/
theorem serialize_integer_spec :
    (∀ i : Int, ¬ fitsI64 i →
      serializeValue (.integer i) = .panic "cannot convert Lua Integer to i64") ∧
    (∀ i : Int, fitsI64 i → serializeValue (.integer i) = .ok (.int64 i)) := by
  constructor <;> intro i h <;> simp [serializeValue, h]

/-- C2 witness: `serialize_integer_spec` at the concrete inputs `2^63`
(out of range) and `5` (in range). -/
theorem serialize_integer_spec_witness :
    serializeValue (.integer (2 ^ 63)) = .panic "cannot convert Lua Integer to i64" ∧
    serializeValue (.integer 5) = .ok (.int64 5) := by
  exact ⟨serialize_integer_spec.1 (2 ^ 63) (by decide),
    serialize_integer_spec.2 5 (by decide)⟩

/-- C6: serialization maps `Nil` to the serializer's unit representation
and the null lightuserdata sentinel to the none/absent representation, and
every `Error`, `Function`, `Thread` or non-null `LightUserData` value fails
with the recoverable error message `"cannot serialize <T>"` where `T` is
the value's `type_name()`. -/
theorem serialize_unit_none_unsupported :
    serializeValue .nil = .ok .unit ∧
    serializeValue Value.NULL = .ok .noneRep ∧
    (∀ e : LuaError, serializeValue (.error e) =
      .err ("cannot serialize <" ++ Value.type_name (.error e) ++ ">")) ∧
    (∀ f : LuaFunction, serializeValue (.function f) =
      .err ("cannot serialize <" ++ Value.type_name (.function f) ++ ">")) ∧
    (∀ t : LuaThread, serializeValue (.thread t) =
      .err ("cannot serialize <" ++ Value.type_name (.thread t) ++ ">")) ∧
    (∀ ud : LightUserData, ud.ptr ≠ 0 → serializeValue (.lightUserData ud) =
      .err ("cannot serialize <" ++ Value.type_name (.lightUserData ud) ++ ">")) := by
  refine ⟨rfl, rfl, fun e => rfl, fun f => rfl, fun t => rfl, fun ud h => ?_⟩
  simp [serializeValue, h]

/-- C6 witness: the hypothesis-bearing clause of
`serialize_unit_none_unsupported` at the concrete non-null lightuserdata
with pointer `1`. -/
theorem serialize_unit_none_unsupported_witness :
    serializeValue (.lightUserData ⟨1⟩) =
      .err ("cannot serialize <" ++ Value.type_name (.lightUserData ⟨1⟩) ++ ">") := by
  exact serialize_unit_none_unsupported.2.2.2.2.2 ⟨1⟩ (by decide)

/-- C8 counterexample: the default `from_lua_multi_args` does NOT wrap a
failed conversion in `BadArgument` — at a concrete failing conversion, with
position `2` and callable name `"f"`, it returns the underlying error
unchanged, and the outcome is not a `BadArgument` error at all. -/
theorem from_lua_multi_args_does_not_wrap :
    from_lua_multi_args
        (fun (_ : MultiValue) => (.error (.runtimeErr "boom") : Except LuaError Nat))
        MultiValue.new 2 (some "f") = .error (.runtimeErr "boom") ∧
    isBadArgumentError (from_lua_multi_args
        (fun (_ : MultiValue) => (.error (.runtimeErr "boom") : Except LuaError Nat))
        MultiValue.new 2 (some "f")) = false := by
  exact ⟨rfl, rfl⟩

/-- C8 (amended): only the single-value path augments conversion failures:
`from_lua_arg` wraps every underlying failure in `Error::BadArgument`
carrying the given position, the optional callable name and the original
error as chained cause (and passes successes through), while the default
multi-value `from_lua_multi_args` discards the position and the callable
name and returns the underlying conversion's outcome unchanged. -/
theorem from_lua_arg_wrapping_spec :
    (∀ (α : Type) (fromLua : Value → Except LuaError α) (v : Value)
        (i : Nat) (toName : Option String) (e : LuaError),
      fromLua v = .error e →
      from_lua_arg fromLua v i toName = .error (.badArgument toName i none e)) ∧
    (∀ (α : Type) (fromLua : Value → Except LuaError α) (v : Value)
        (i : Nat) (toName : Option String) (a : α),
      fromLua v = .ok a → from_lua_arg fromLua v i toName = .ok a) ∧
    (∀ (α : Type) (fromLuaMulti : MultiValue → Except LuaError α) (vs : MultiValue)
        (i : Nat) (toName : Option String),
      from_lua_multi_args fromLuaMulti vs i toName = fromLuaMulti vs) := by
  refine ⟨?_, ?_, ?_⟩
  · intro α fromLua v i toName e h
    simp [from_lua_arg, h]
  · intro α fromLua v i toName a h
    simp [from_lua_arg, h]
  · intro α fromLuaMulti vs i toName
    rfl

/-- C8 witness: `from_lua_arg_wrapping_spec` applied at concrete failing
and succeeding conversions. -/
theorem from_lua_arg_wrapping_spec_witness :
    from_lua_arg (fun (_ : Value) => (.error (.runtimeErr "boom") : Except LuaError Nat))
        Value.nil 2 (some "f") =
      .error (.badArgument (some "f") 2 none (.runtimeErr "boom")) ∧
    from_lua_arg (fun (_ : Value) => (.ok 7 : Except LuaError Nat))
        Value.nil 1 none = .ok 7 := by
  exact ⟨from_lua_arg_wrapping_spec.1 Nat _ Value.nil 2 (some "f") (.runtimeErr "boom") rfl,
    from_lua_arg_wrapping_spec.2.1 Nat _ Value.nil 1 none 7 rfl⟩

/-- C10: for every pair of values that is not two tables and not two
userdata, `Value::equals` never fails: it returns exactly `Ok` of the raw
`PartialEq` comparison of the two payloads (no metamethod dispatch). -/
theorem equals_total_outside_table_userdata :
    ∀ a b : Value, (a.isTable && b.isTable) = false →
      (a.isUserData && b.isUserData) = false →
      Value.equals a b = .ok (valueEq a b) := by
  intro a b h1 h2
  cases a <;> cases b <;> try rfl
  all_goals simp_all [Value.isTable, Value.isUserData]

/-- C10 witness: `equals_total_outside_table_userdata` at a concrete
table/integer pair (a table compared with a non-table never consults the
`__eq` metamethod and simply compares unequal). -/
theorem equals_total_outside_table_userdata_witness :
    Value.equals (.table ⟨⟨1, .ok "t"⟩, some (.error (.runtimeErr "eq failed"))⟩)
        (.integer 1) =
      .ok (valueEq (.table ⟨⟨1, .ok "t"⟩, some (.error (.runtimeErr "eq failed"))⟩)
        (.integer 1)) := by
  exact equals_total_outside_table_userdata _ _ (by decide) (by decide)

/-- The loop of `refill` run on a prefix of successful productions moves
that prefix, in order, onto the end of the accumulator. -/
theorem refillGo_ok_prefix (P : List Value) :
    ∀ (l : List (Except LuaError Value)) (acc : List Value),
      refillGo (P.map Except.ok ++ l) acc = refillGo l (acc ++ P) := by
  induction P with
  | nil => intro l acc; simp
  | cons v P ih =>
    intro l acc
    have h1 : (v :: P).map Except.ok ++ l = Except.ok v :: (P.map Except.ok ++ l) := by
      simp
    rw [h1]
    rw [show refillGo (Except.ok v :: (P.map Except.ok ++ l)) acc
        = refillGo (P.map Except.ok ++ l) (acc ++ [v]) from rfl]
    rw [ih]
    simp

/-- C7: `refill` first clears the container and then rebuilds it. When
every production succeeds the container ends as `from_vec` of the produced
list (first-produced value at the logical front, `into_vec` returning the
productions in order); at the first failed production it returns that error
and stops, the final state being exactly the cleared container rebuilt with
the successful prefix (in storage order, the reverse step never having
run) — independent, in both cases, of the container's previous contents and
of any productions after the first failure (short-circuit). -/
theorem refill_spec :
    (∀ (mv : MultiValue) (L : List Value),
      MultiValue.refill mv (L.map Except.ok) = (.ok (), MultiValue.from_vec L)) ∧
    (∀ (mv : MultiValue) (L : List Value),
      ((MultiValue.refill mv (L.map Except.ok)).2).into_vec = L) ∧
    (∀ (mv : MultiValue) (P : List Value) (e : LuaError)
        (rest : List (Except LuaError Value)),
      MultiValue.refill mv (P.map Except.ok ++ .error e :: rest) = (.error e, ⟨P⟩)) := by
  refine ⟨?_, ?_, ?_⟩
  · intro mv L
    simp [MultiValue.refill, MultiValue.from_vec]
    rw [show L.map Except.ok = L.map Except.ok ++ [] by simp, refillGo_ok_prefix]
    simp [refillGo]
  · intro mv L
    simp [MultiValue.refill, MultiValue.into_vec]
    rw [show L.map Except.ok = L.map Except.ok ++ [] by simp, refillGo_ok_prefix]
    simp [refillGo]
  · intro mv P e rest
    simp [MultiValue.refill, refillGo_ok_prefix, refillGo]

/-- Rust `MultiValue::get` is logical front-to-back access: it agrees with
lookup in the `into_vec` (logical-order) list at every index, in and out of
range. -/
theorem multi_get_eq_into_vec (mv : MultiValue) (i : Nat) :
    mv.get i = mv.into_vec.get? i := by
  unfold MultiValue.get MultiValue.into_vec
  by_cases h : i < mv.inner.length
  · rw [if_pos h]
    rw [show mv.inner.length - i - 1
        = mv.inner.length - 1 - i by omega]
    rw [← List.get?_reverse h]
  · rw [if_neg h]
    symm
    rw [List.get?_eq_none]
    simp only [List.length_reverse]
    omega

/-- C3: `from_vec` followed by `into_vec` is the identity on every ordered
list of values, and for every in-range index both `get(i)` and the `Index`
operator on `from_vec L` yield `L[i]` — logical front-to-back order,
regardless of the reversed internal storage. -/
theorem multivalue_round_trip :
    (∀ L : List Value, (MultiValue.from_vec L).into_vec = L) ∧
    (∀ (L : List Value) (i : Nat) (h : i < L.length),
      (MultiValue.from_vec L).get i = some (L.get ⟨i, h⟩) ∧
      (MultiValue.from_vec L).index i = .ok (L.get ⟨i, h⟩)) := by
  have hrt : ∀ L : List Value, (MultiValue.from_vec L).into_vec = L := by
    intro L
    simp [MultiValue.from_vec, MultiValue.into_vec]
  refine ⟨hrt, ?_⟩
  intro L i h
  have hg : (MultiValue.from_vec L).get i = some (L.get ⟨i, h⟩) := by
    rw [multi_get_eq_into_vec, hrt, List.get?_eq_get h]
  exact ⟨hg, by simp [MultiValue.index, hg]⟩

/-- C3 witness: `multivalue_round_trip` at the concrete list
`[Nil, Boolean true]` and index `1`. -/
theorem multivalue_round_trip_witness :
    (MultiValue.from_vec [Value.nil, Value.boolean true]).get 1
      = some (Value.boolean true) ∧
    (MultiValue.from_vec [Value.nil, Value.boolean true]).index 1
      = .ok (Value.boolean true) := by
  have h := multivalue_round_trip.2 [Value.nil, Value.boolean true] 1 (by decide)
  exact ⟨h.1, h.2⟩

/-- C9: indexed access on a `MultiValue` panics (with the formatted
out-of-bounds message) exactly when the index is at or past the length,
where `get` returns `None`; for an in-range index both return the logical
`i`-th element counted from the front. -/
theorem multivalue_index_panics_get_returns_none :
    ∀ (mv : MultiValue) (i : Nat),
      (mv.len ≤ i → mv.get i = none ∧
        mv.index i = .panic ("index out of bounds: the len is " ++ toString mv.len
          ++ " but the index is " ++ toString i)) ∧
      (∀ v : Value, mv.into_vec.get? i = some v →
        mv.get i = some v ∧ mv.index i = .ok v) := by
  intro mv i
  constructor
  · intro h
    have hg : mv.get i = none := by
      rw [multi_get_eq_into_vec, List.get?_eq_none]
      simpa [MultiValue.into_vec] using h
    exact ⟨hg, by simp [MultiValue.index, hg]⟩
  · intro v hv
    have hg : mv.get i = some v := by
      rw [multi_get_eq_into_vec]
      exact hv
    exact ⟨hg, by simp [MultiValue.index, hg]⟩

/-- C9 witness: `multivalue_index_panics_get_returns_none` on the
one-element container, at the out-of-range index `5` and the in-range
index `0`. -/
theorem multivalue_index_panics_witness :
    (MultiValue.from_vec [Value.nil]).get 5 = none ∧
    (MultiValue.from_vec [Value.nil]).index 5
      = .panic ("index out of bounds: the len is "
        ++ toString (MultiValue.from_vec [Value.nil]).len ++ " but the index is "
        ++ toString 5) ∧
    (MultiValue.from_vec [Value.nil]).get 0 = some Value.nil ∧
    (MultiValue.from_vec [Value.nil]).index 0 = .ok Value.nil := by
  have h1 := (multivalue_index_panics_get_returns_none (MultiValue.from_vec [Value.nil]) 5).1
    (by decide)
  have h2 := (multivalue_index_panics_get_returns_none (MultiValue.from_vec [Value.nil]) 0).2
    Value.nil (by decide)
  exact ⟨h1.1, h1.2, h2.1, h2.2⟩

/-- A value in a strictly lower precedence category compares `Less`. -/
theorem cmp_lt_of_rank_lt (a b : Value) (h : specRank a < specRank b) :
    valueCmp a b = .lt := by
  cases a <;> cases b <;>
    simp_all [specRank, valueCmp, valueCmpAfterNull] <;>
    split_ifs at h ⊢ <;> simp_all <;> (rintro rfl; simp_all)

/-- A value in a strictly higher precedence category compares `Greater`. -/
theorem cmp_gt_of_rank_lt (a b : Value) (h : specRank a < specRank b) :
    valueCmp b a = .gt := by
  cases a <;> cases b <;>
    simp_all [specRank, valueCmp, valueCmpAfterNull] <;>
    split_ifs at h ⊢ <;> simp_all <;> (rintro rfl; simp_all)

/-- Within the last precedence category everything is compared by its
pointer-identity token. -/
theorem cmp_rank5_by_pointer (a b : Value) (ha : specRank a = 5) (hb : specRank b = 5) :
    valueCmp a b = natCmp a.toPointer b.toPointer := by
  cases a <;> cases b <;>
    simp_all [specRank, valueCmp, valueCmpAfterNull, Value.toPointer] <;>
    (rintro rfl; simp [natCmp])

/-- C4: `Value::cmp` (a total function over every pair of values) follows
the stated precedence: any value of a strictly lower category — Nil lowest,
then the null lightuserdata sentinel, then Booleans, then Integer/Number,
then Strings, then everything else — compares `Less` (and `Greater` the
other way around); Booleans compare `false < true`; Integers compare as
integers; Integer vs Number is compared numerically (`cmp(Integer(2),
Number(3.0)) = Less`); Strings compare lexicographically by raw bytes; and
every pair in the final category compares by pointer-identity token. -/
theorem cmp_follows_precedence :
    (∀ a b : Value, specRank a < specRank b →
      valueCmp a b = .lt ∧ valueCmp b a = .gt) ∧
    (∀ x y : Bool, valueCmp (.boolean x) (.boolean y) = boolCmp x y) ∧
    (∀ i j : Int, valueCmp (.integer i) (.integer j) = intCmp i j) ∧
    valueCmp (.integer 2) (.number (.finite 3)) = .lt ∧
    (∀ s1 s2 : LuaString, valueCmp (.string s1) (.string s2) = byteCmp s1.bytes s2.bytes) ∧
    (∀ a b : Value, specRank a = 5 → specRank b = 5 →
      valueCmp a b = natCmp a.toPointer b.toPointer) := by
  refine ⟨fun a b h => ⟨cmp_lt_of_rank_lt a b h, cmp_gt_of_rank_lt a b h⟩,
    fun x y => rfl, fun i j => rfl, by decide, fun s1 s2 => rfl,
    cmp_rank5_by_pointer⟩

/-- C4 witness: `cmp_follows_precedence` at concrete inputs discharging
each hypothesis — Nil below a Boolean, the null sentinel below a Boolean,
and two distinct handle pointers compared by token. -/
theorem cmp_follows_precedence_witness :
    valueCmp Value.nil (.boolean false) = .lt ∧
    valueCmp (.boolean false) Value.nil = .gt ∧
    valueCmp Value.NULL (.boolean false) = .lt ∧
    valueCmp (.table ⟨⟨1, .ok "t"⟩, none⟩) (.function ⟨⟨2, .ok "f"⟩⟩)
      = natCmp (Value.toPointer (.table ⟨⟨1, .ok "t"⟩, none⟩))
        (Value.toPointer (.function ⟨⟨2, .ok "f"⟩⟩)) := by
  refine ⟨(cmp_follows_precedence.1 Value.nil (.boolean false) (by decide)).1,
    (cmp_follows_precedence.1 Value.nil (.boolean false) (by decide)).2,
    (cmp_follows_precedence.1 Value.NULL (.boolean false) (by decide)).1,
    cmp_follows_precedence.2.2.2.2.2 _ _ (by decide) (by decide)⟩

end Mlua
